import Mathlib

/-!
Verification of the ScreenSnapp API backend (src/main.py) against its
natural-language specification.

Python strings are embedded as lists of characters (`PyStr`).  Python's
whitespace set for `str.strip()` is modelled by the ASCII whitespace
characters.  Fallible Python code is embedded with `Except`; dynamic
JSON-ish values with the inductive `PyVal`.
-/

abbrev PyStr := List Char

/-- ASCII whitespace, modelling Python's `str.strip()` / regex whitespace
class. -/
def isPyWs (c : Char) : Bool :=
  c = ' ' || c = '\t' || c = '\n' || c = '\r' || c = '\x0b' || c = '\x0c'

/-- Left strip: drop leading whitespace. -/
def lstripFn (s : PyStr) : PyStr := s.dropWhile isPyWs

/-- Right strip: drop trailing whitespace. -/
def rstripFn (s : PyStr) : PyStr := (s.reverse.dropWhile isPyWs).reverse

/-- Python `str.strip()`. -/
def pyStrip (s : PyStr) : PyStr := rstripFn (lstripFn s)

/-- Python `str.lower()` (ASCII model). -/
def pyLower (s : PyStr) : PyStr := s.map Char.toLower

/-- The deduplication loop of `extract_text_from_clarifai_response`
(src/main.py lines 124-130), restricted to string fragments: strip each
fragment, drop empties, and skip fragments whose lowercase form was
already seen. -/
def cleanLoop (seen : List PyStr) : List PyStr → List PyStr
  | [] => []
  | t :: ts =>
    let t2 := pyStrip t
    if t2 ≠ [] ∧ pyLower t2 ∉ seen then
      t2 :: cleanLoop (pyLower t2 :: seen) ts
    else
      cleanLoop seen ts

/-- Fragment cleanup entry point (empty `seen` set). -/
def cleanFragments (texts : List PyStr) : List PyStr := cleanLoop [] texts

/-- Spec-side declarative deduplication (spec 4.2: "case-insensitive;
first occurrence wins; order preserved"): keep the head, drop every later
fragment with the same lowercase form, recurse. -/
def dedupFirstSpec : List PyStr → List PyStr
  | [] => []
  | a :: as => a :: dedupFirstSpec (as.filter (fun b => pyLower b ≠ pyLower a))
termination_by l => l.length
decreasing_by
  simp only [List.length_cons]
  exact Nat.lt_succ_of_le (List.length_filter_le _ _)

/-- Python `" ".join(l)`. -/
def joinSpace : List PyStr → PyStr
  | [] => []
  | [s] => s
  | s :: rest => s ++ ' ' :: joinSpace rest

/-- Python `" ".join(cleaned).strip()` (src/main.py line 132) applied to a
fragment list. -/
def combineText (ts : List PyStr) : PyStr := pyStrip (joinSpace (cleanFragments ts))

/-- OcrResult from the spec's data model (section 3): deduplicated
fragments plus the combined text. -/
structure OcrResult where
  fragments : List PyStr
  combinedText : PyStr
deriving DecidableEq

/-- OCR consolidation as the spec's `consolidate`: the cleanup loop of
`extract_text_from_clarifai_response` packaged as an OcrResult. -/
def consolidate (ts : List PyStr) : OcrResult :=
  ⟨cleanFragments ts, combineText ts⟩

/-- Python exceptions that the modelled dynamic operations can raise. -/
inductive PyExc where
  | attrError
  | typeError
  | indexError
  | keyError
deriving DecidableEq, Repr

/-- Dynamic JSON-ish Python values (`Any` in the source's type hints). -/
inductive PyVal where
  | none
  | bool (b : Bool)
  | int (n : Int)
  | str (s : PyStr)
  | list (xs : List PyVal)
  | dict (kvs : List (PyStr × PyVal))

/-- Python `v.get(k, d)`: only dictionaries have `.get`; every other
value raises `AttributeError`. -/
def pyGetD (v : PyVal) (k : PyStr) (d : PyVal) : Except PyExc PyVal :=
  match v with
  | .dict kvs => .ok ((List.lookup k kvs).getD d)
  | _ => .error .attrError

/-- Python truthiness. -/
def pyTruthy : PyVal → Bool
  | .none => false
  | .bool b => b
  | .int n => n != 0
  | .str s => !s.isEmpty
  | .list xs => !xs.isEmpty
  | .dict kvs => !kvs.isEmpty

/-- Python `v[0]`: lists and strings are subscriptable (a string yields a
one-character string), a dict raises `KeyError` for a missing integer
key, everything else raises `TypeError`. -/
def pyElem0 : PyVal → Except PyExc PyVal
  | .list [] => .error .indexError
  | .list (x :: _) => .ok x
  | .str [] => .error .indexError
  | .str (c :: _) => .ok (.str [c])
  | .dict _ => .error .keyError
  | _ => .error .typeError

/-- Python `for x in v`: lists iterate elements, strings iterate
one-character strings, dicts iterate keys, other values raise
`TypeError`. -/
def pyIter : PyVal → Except PyExc (List PyVal)
  | .list xs => .ok xs
  | .str s => .ok (s.map fun c => .str [c])
  | .dict kvs => .ok (kvs.map fun kv => .str kv.1)
  | _ => .error .typeError

/-- Is the value a Python `str` (`isinstance(name, str)`)? -/
def isStr : PyVal → Bool
  | .str _ => true
  | _ => false

/-- The chain `r.get("data", x).get("text", x).get("raw", "")` with `x` the
empty dict, for one region
(src/main.py lines 99-103). -/
def regionRaw (r : PyVal) : Except PyExc PyVal := do
  let d ← pyGetD r "data".toList (.dict [])
  let t ← pyGetD d "text".toList (.dict [])
  pyGetD t "raw".toList (.str [])

/-- The regions loop (src/main.py lines 98-105): gather each region's
truthy raw text, in order. -/
def gatherRegions : List PyVal → Except PyExc (List PyVal)
  | [] => .ok []
  | r :: rs => do
    let raw ← regionRaw r
    let rest ← gatherRegions rs
    if pyTruthy raw then return raw :: rest else return rest

/-- The concepts loop (src/main.py lines 113-117): gather each truthy
concept name that is a string. -/
def gatherConcepts : List PyVal → Except PyExc (List PyVal)
  | [] => .ok []
  | c :: cs => do
    let name ← pyGetD c "name".toList (.str [])
    let rest ← gatherConcepts cs
    if pyTruthy name ∧ isStr name then return name :: rest else return rest

/-- The guarded gathering phase of `extract_text_from_clarifai_response`
(the `try` block, src/main.py lines 88-117).  `Option.none` models the
early `return ""` taken when `outputs` is falsy; an `.error` models an
exception inside the `try` block (caught by the `except`). -/
def gatherTexts (data : PyVal) : Except PyExc (Option (List PyVal)) := do
  let outputs ← pyGetD data "outputs".toList (.list [])
  if pyTruthy outputs = false then return Option.none
  let output0 ← pyElem0 outputs
  let d ← pyGetD output0 "data".toList (.dict [])
  let regions ← pyGetD d "regions".toList (.list [])
  let rlist ← pyIter regions
  let regionTexts ← gatherRegions rlist
  let t ← pyGetD d "text".toList (.dict [])
  let rawText ← pyGetD t "raw".toList (.str [])
  let withRaw := if pyTruthy rawText then regionTexts ++ [rawText] else regionTexts
  let concepts ← pyGetD d "concepts".toList (.list [])
  let clist ← pyIter concepts
  let conceptTexts ← gatherConcepts clist
  return some (withRaw ++ conceptTexts)

/-- Python `t.strip()` on a dynamic value: only strings have `.strip`. -/
def pyStripVal : PyVal → Except PyExc PyStr
  | .str s => .ok (pyStrip s)
  | _ => .error .attrError

/-- The cleanup loop over the gathered (dynamic) texts (src/main.py
lines 124-130).  It sits outside the `try` block, so its exceptions
propagate. -/
def cleanupLoop (seen : List PyStr) : List PyVal → Except PyExc (List PyStr)
  | [] => .ok []
  | t :: ts => do
    let t2 ← pyStripVal t
    if t2 ≠ [] ∧ pyLower t2 ∉ seen then
      let rest ← cleanupLoop (pyLower t2 :: seen) ts
      return t2 :: rest
    else
      cleanupLoop seen ts

/-- The function `extract_text_from_clarifai_response` (src/main.py lines
80-132).
Exceptions inside the gathering `try` block yield `""`; the final
cleanup/join runs outside the `try`, so its exceptions escape. -/
def extractText (data : PyVal) : Except PyExc PyStr :=
  match gatherTexts data with
  | .error _ => .ok []
  | .ok Option.none => .ok []
  | .ok (some texts) =>
    match cleanupLoop [] texts with
    | .error e => .error e
    | .ok cleaned => .ok (pyStrip (joinSpace cleaned))

/-- The characters replaced by `re.sub(r"[\r\n\t]+", " ", s)`. -/
def isRNT (c : Char) : Bool := c = '\r' || c = '\n' || c = '\t'

/-- Python `re.sub` of the carriage-return/newline/tab class, one or more
times, with " " (src/main.py line 144): every maximal
run of `\r\n\t` characters becomes a single space. -/
def collapseRNT (s : PyStr) : PyStr :=
  ((s.splitBy (fun a b => isRNT a == isRNT b)).map
    (fun ch => match ch with
      | c :: _ => if isRNT c then [' '] else ch
      | [] => [])).flatten

/-- Python `re.sub` of two-or-more whitespace with " " (src/main.py line
145): every maximal
whitespace run of length at least two becomes a single space; a lone
whitespace character is kept as is. -/
def collapseWs2 (s : PyStr) : PyStr :=
  ((s.splitBy (fun a b => isPyWs a == isPyWs b)).map
    (fun ch => match ch with
      | c :: _ => if isPyWs c ∧ 2 ≤ ch.length then [' '] else ch
      | [] => [])).flatten

/-- The delimiters of `re.split(r"[|•·]+", s)`. -/
def isDelim (c : Char) : Bool := c = '|' || c = '•' || c = '·'

/-- Python `re.split` on one-or-more of the delimiter class (src/main.py
line 148): split on maximal
delimiter runs, keeping empty pieces at the ends exactly as `re.split`
does. -/
def splitDelims : PyStr → List PyStr
  | [] => [[]]
  | c :: cs =>
    if isDelim c then
      match cs with
      | [] => [[], []]
      | d :: _ => if isDelim d then splitDelims cs else [] :: splitDelims cs
    else
      match splitDelims cs with
      | [] => [[c]]
      | p :: ps => (c :: p) :: ps

/-- Stable insert for descending length order: `a` goes before the first
element it is at least as long as (so earlier-arrived elements win
ties). -/
def insertByLenDesc (a : PyStr) : List PyStr → List PyStr
  | [] => [a]
  | b :: bs => if b.length ≤ a.length then a :: b :: bs else b :: insertByLenDesc a bs

/-- Python `candidates.sort(key=lambda x: len(x), reverse=True)`
(src/main.py
line 152): Python's stable sort, by length, descending. -/
def sortByLenDesc : List PyStr → List PyStr
  | [] => []
  | a :: as => insertByLenDesc a (sortByLenDesc as)

/-- The function `guess_title_from_text` (src/main.py lines 135-159). -/
def guessTitle (ocr : PyStr) : PyStr :=
  if ocr = [] then []
  else
    let s := pyStrip (collapseWs2 (collapseRNT ocr))
    let cands := ((splitDelims s).map pyStrip).filter (fun c => !c.isEmpty)
    match (sortByLenDesc cands).find?
        (fun c => 3 ≤ c.length && c.length ≤ 80 &&
          3 ≤ (c.filter Char.isAlpha).length) with
    | some c => c
    | Option.none => s.take 80

/-- One entry of the TMDB `results` list, with the optional keys the
code reads (`best.get(...)` returns `None` for a missing key). -/
structure TmdbItem where
  media_type : Option PyStr
  title : Option PyStr
  name : Option PyStr
  overview : Option PyStr
  poster_path : Option PyStr
  release_date : Option PyStr
  first_air_date : Option PyStr
  tmdbId : Option Int
deriving DecidableEq

/-- A chain of Python `or`s over optional strings, as in
`best.get("title") or best.get("name") or ""`: the first truthy
(present and non-empty) string wins, else `""`. -/
def firstTruthyStr : List (Option PyStr) → PyStr
  | [] => []
  | o :: os =>
    match o with
    | some s => if s ≠ [] then s else firstTruthyStr os
    | Option.none => firstTruthyStr os

/-- The poster URL: the w500 image path formatted around `poster_path`
if `poster_path` is truthy, else
None` (src/main.py line 198). -/
def posterUrl (p : Option PyStr) : Option PyStr :=
  match p with
  | some s => if s ≠ [] then some ("https://image.tmdb.org/t/p/w500".toList ++ s) else Option.none
  | Option.none => Option.none

/-- What `tmdb_search` produces: one of its returned dicts, a
`RuntimeError` from `require_env`, or the exception from `r.json()` on a
malformed body. -/
inductive TmdbOutcome where
  | noMatch (reason : PyStr)
  | upstreamErr (reason : PyStr) (status_code : Nat) (body : PyStr)
  | matchFound (media_type : Option PyStr) (tmdb_id : Option Int)
      (title overview release_date : PyStr) (poster_url : Option PyStr)
  | runtimeErr (msg : PyStr)
  | jsonErr
deriving DecidableEq

/-- The remote TMDB response: HTTP status, body text, and the decoded
`results` list (`Option.none` models a body whose JSON decoding raises;
a missing `results` key is the default `[]`). -/
structure TmdbRemote where
  status : Nat
  text : PyStr
  results : Option (List TmdbItem)

/-- The function `tmdb_search` (src/main.py lines 162-209).  The second
component
records whether the remote HTTP call was made. -/
def tmdbSearch (apiKey query : PyStr) (fetch : Unit → TmdbRemote) : TmdbOutcome × Bool :=
  if apiKey = [] then
    (.runtimeErr "TMDB_API_KEY is missing (Railway Variables -> TMDB_API_KEY)".toList, false)
  else if query = [] then
    (.noMatch "Empty query".toList, false)
  else
    let r := fetch ()
    if r.status ≠ 200 then
      (.upstreamErr "TMDB error".toList r.status (r.text.take 500), true)
    else
      match r.results with
      | Option.none => (.jsonErr, true)
      | some [] => (.noMatch "No results".toList, true)
      | some (best :: _) =>
        (.matchFound best.media_type best.tmdbId
          (firstTruthyStr [best.title, best.name])
          (firstTruthyStr [best.overview])
          (firstTruthyStr [best.release_date, best.first_air_date])
          (posterUrl best.poster_path), true)

/-- The `detail` of the two 502 `HTTPException`s in `clarifai_ocr`. -/
inductive ClarifaiDetail where
  | requestFailed (status_code : Nat) (body : PyStr)
  | nonSuccess (status : PyVal)

/-- What `clarifai_ocr` produces: the decoded JSON, a 502
`HTTPException`, an uncaught Python exception from the in-JSON status
check, the exception from `resp.json()`, or a `RuntimeError` from
`require_env`. -/
inductive ClarifaiOutcome where
  | ok (data : PyVal)
  | httpErr (status : Nat) (detail : ClarifaiDetail)
  | pyErr (e : PyExc)
  | jsonErr
  | runtimeErr (msg : PyStr)

/-- The negation of `code not in (None, 10000)`: the in-JSON status code
values
Clarifai treats as success. -/
def isNoneOr10000 : PyVal → Bool
  | .none => true
  | .int n => n == 10000
  | _ => false

/-- The remote Clarifai response: HTTP status, body text, and the
decoded JSON (`Option.none` models a body whose JSON decoding raises). -/
structure ClarifaiRemote where
  status : Nat
  text : PyStr
  json : Option PyVal

/-- The service configuration loaded from the environment (src/main.py
lines 35-42), each value already stripped. -/
structure Config where
  apiBearerToken : PyStr
  clarifaiPat : PyStr
  clarifaiUserId : PyStr
  clarifaiAppId : PyStr
  clarifaiModelId : PyStr
  tmdbApiKey : PyStr

/-- The function `clarifai_ocr` (src/main.py lines 212-266).  The second
component
records whether the remote HTTP call was made. -/
def clarifaiOcr (cfg : Config) (fetch : Unit → ClarifaiRemote) : ClarifaiOutcome × Bool :=
  if cfg.clarifaiPat = [] then
    (.runtimeErr "CLARIFAI_PAT is missing (Railway Variables -> CLARIFAI_PAT)".toList, false)
  else if cfg.clarifaiUserId = [] then
    (.runtimeErr "CLARIFAI_USER_ID is missing (Railway Variables -> CLARIFAI_USER_ID)".toList, false)
  else if cfg.clarifaiAppId = [] then
    (.runtimeErr "CLARIFAI_APP_ID is missing (Railway Variables -> CLARIFAI_APP_ID)".toList, false)
  else if cfg.clarifaiModelId = [] then
    (.runtimeErr "CLARIFAI_OCR_MODEL_ID is missing (Railway Variables -> CLARIFAI_OCR_MODEL_ID)".toList, false)
  else
    let resp := fetch ()
    if resp.status ≠ 200 then
      (.httpErr 502 (.requestFailed resp.status (resp.text.take 1000)), true)
    else
      match resp.json with
      | Option.none => (.jsonErr, true)
      | some data =>
        match pyGetD data "status".toList (.dict []) with
        | .error e => (.pyErr e, true)
        | .ok status =>
          if pyTruthy status then
            match pyGetD status "code".toList .none with
            | .error e => (.pyErr e, true)
            | .ok code =>
              if isNoneOr10000 code then (.ok data, true)
              else (.httpErr 502 (.nonSuccess status), true)
          else (.ok data, true)

/-- The result of the `bearer_auth` dependency: pass, or a 401
`HTTPException` with the given detail. -/
inductive AuthResult where
  | ok
  | reject (detail : PyStr)
deriving DecidableEq

/-- Python `s.split(" ", 1)`: the part before the first space, and
(when a space exists) the rest. -/
def pySplit1 (s : PyStr) : PyStr × Option PyStr :=
  if ' ' ∈ s then
    (s.takeWhile (fun c => c ≠ ' '), some ((s.dropWhile (fun c => c ≠ ' ')).tail))
  else (s, Option.none)

/-- The dependency `bearer_auth` (src/main.py lines 59-77). -/
def bearerAuth (cfgToken : PyStr) (authorization : Option PyStr) : AuthResult :=
  if cfgToken = [] then .ok
  else
    match authorization with
    | Option.none => .reject "Missing Authorization header".toList
    | some s =>
      if s = [] then .reject "Missing Authorization header".toList
      else
        match pySplit1 s with
        | (_, Option.none) => .reject "Invalid Authorization header format".toList
        | (scheme, some rest) =>
          if pyLower scheme ≠ "bearer".toList then
            .reject "Invalid Authorization header format".toList
          else if pyStrip rest ≠ cfgToken then .reject "Invalid token".toList
          else .ok

/-- A response of the `/identify-screen` endpoint: the 200 JSON payload,
an `HTTPException` with a string detail, or the 502 `HTTPException`
carrying a structured Clarifai detail.  (The generic handler turns any
other exception into a 500 whose detail starts with "Server error".) -/
inductive Response where
  | okJson (ocr_text guessed_title : PyStr) (tmdb : TmdbOutcome)
  | err (status : Nat) (detail : PyStr)
  | errClarifai (status : Nat) (detail : ClarifaiDetail)

/-- The `/identify-screen` handler (src/main.py lines 282-329): bearer
auth (a FastAPI dependency, evaluated before the body), the empty-upload
check, Clarifai OCR, text extraction, title guess, TMDB search, and the
exception translation of the surrounding `try`/`except`.  The two
booleans record whether the Clarifai and TMDB remote calls were made. -/
def identifyScreen (cfg : Config) (authorization : Option PyStr) (contents : PyStr)
    (cfetch : Unit → ClarifaiRemote) (tfetch : Unit → TmdbRemote) :
    Response × Bool × Bool :=
  match bearerAuth cfg.apiBearerToken authorization with
  | .reject d => (.err 401 d, false, false)
  | .ok =>
    if contents = [] then (.err 400 "Uploaded file is empty".toList, false, false)
    else
      match clarifaiOcr cfg cfetch with
      | (.runtimeErr m, called) => (.err 500 m, called, false)
      | (.httpErr s d, called) => (.errClarifai s d, called, false)
      | (.jsonErr, called) => (.err 500 "Server error".toList, called, false)
      | (.pyErr _, called) => (.err 500 "Server error".toList, called, false)
      | (.ok data, called) =>
        match extractText data with
        | .error _ => (.err 500 "Server error".toList, called, false)
        | .ok ocrText =>
          let g := guessTitle ocrText
          match tmdbSearch cfg.tmdbApiKey g tfetch with
          | (.runtimeErr m, tc) => (.err 500 m, called, tc)
          | (.jsonErr, tc) => (.err 500 "Server error".toList, called, tc)
          | (out, tc) => (.okJson ocrText g out, called, tc)

/-- Modelled from the spec: the default HIGH_CONF threshold (spec
sections 3 and 4.1); the confidence-ranking component is not present in
src/. -/
def HIGH_CONF : ℚ := 85 / 100

/-- Modelled from the spec: the default MED_CONF threshold (spec
sections 3 and 4.1). -/
def MED_CONF : ℚ := 65 / 100

/-- Modelled from the spec: scores are clamped into [0,1] before
comparison (spec 4.1, edge cases). -/
def clamp01 (s : ℚ) : ℚ := max 0 (min 1 s)

/-- ConfidenceTier from the spec's data model (section 3). -/
inductive ConfTier where
  | high
  | medium
  | low
  | none
deriving DecidableEq

/-- The top score of a candidate list: the score of the first candidate
after the stable descending sort, i.e. the maximum. -/
def topScore : List ℚ → ℚ
  | [] => 0
  | s :: rest => rest.foldl max s

/-- Modelled from the spec: tier assignment of the confidence-ranking
component (spec 4.1): clamp the top score, then score at least HIGH_CONF
gives high, at least MED_CONF gives medium, otherwise low; an empty
candidate list gives none. -/
def assignTier (cands : List ℚ) : ConfTier :=
  match cands with
  | [] => .none
  | s :: rest =>
    let c := clamp01 (topScore (s :: rest))
    if HIGH_CONF ≤ c then .high
    else if MED_CONF ≤ c then .medium
    else .low

/-- Dropping while a predicate holds is idempotent. -/
theorem dropWhile_dropWhile (p : Char → Bool) (l : List Char) :
    List.dropWhile p (List.dropWhile p l) = List.dropWhile p l := by
  induction l with
  | nil => rfl
  | cons c cs ih =>
    by_cases h : p c
    · simp [List.dropWhile_cons, h, ih]
    · simp [List.dropWhile_cons, h]

/-- If a list is unchanged by dropWhile and non-empty, its head fails
the predicate. -/
theorem head_of_dropWhile_fix {p : Char → Bool} {l : List Char} {c : Char} {r : List Char}
    (hfix : List.dropWhile p l = l) (hl : l = c :: r) : p c = false := by
  subst hl
  by_contra h
  have hc : p c = true := by
    cases hpc : p c with
    | false => exact absurd hpc h
    | true => rfl
  rw [List.dropWhile_cons, if_pos hc] at hfix
  have := (List.dropWhile_suffix p (l := r)).length_le
  rw [hfix] at this
  simp at this

theorem lstrip_lstrip (l : PyStr) : lstripFn (lstripFn l) = lstripFn l :=
  dropWhile_dropWhile _ _

theorem rstrip_rstrip (l : PyStr) : rstripFn (rstripFn l) = rstripFn l := by
  unfold rstripFn
  rw [List.reverse_reverse, dropWhile_dropWhile]

/-- A left-stripped list stays left-stripped after right strip. -/
theorem lstrip_rstrip {x : PyStr} (h : lstripFn x = x) :
    lstripFn (rstripFn x) = rstripFn x := by
  obtain ⟨t, ht⟩ := List.dropWhile_suffix (l := x.reverse) isPyWs
  have hx : x = rstripFn x ++ t.reverse := by
    have := congrArg List.reverse ht
    simpa [rstripFn] using this.symm
  cases hr : rstripFn x with
  | nil => simp [lstripFn]
  | cons c r =>
    have hx2 : x = c :: (r ++ t.reverse) := by rw [hx, hr]; simp
    have hc : isPyWs c = false := head_of_dropWhile_fix h hx2
    simp [lstripFn, List.dropWhile_cons, hc]

theorem pyStrip_pyStrip (s : PyStr) : pyStrip (pyStrip s) = pyStrip s := by
  unfold pyStrip
  rw [lstrip_rstrip (lstrip_lstrip s), rstrip_rstrip]

/-- The two strip fixed-point facts for a stripped string. -/
theorem pyStrip_fixed (s : PyStr) :
    lstripFn (pyStrip s) = pyStrip s ∧ rstripFn (pyStrip s) = pyStrip s := by
  constructor
  · exact lstrip_rstrip (lstrip_lstrip s)
  · unfold pyStrip
    exact rstrip_rstrip _

theorem pyStrip_eq_self_of_fixed {s : PyStr} (h1 : lstripFn s = s) (h2 : rstripFn s = s) :
    pyStrip s = s := by
  unfold pyStrip
  rw [h1, h2]

theorem joinSpace_cons (s : PyStr) (e : PyStr) (rest : List PyStr) :
    joinSpace (s :: e :: rest) = s ++ ' ' :: joinSpace (e :: rest) := rfl

theorem joinSpace_ne_nil {x : PyStr} (hx : x ≠ []) (xs : List PyStr) :
    joinSpace (x :: xs) ≠ [] := by
  cases xs with
  | nil => simpa [joinSpace] using hx
  | cons y ys =>
    rw [joinSpace_cons]
    simp [hx]

/-- Left strip is the identity on a join headed by a non-empty
left-stripped fragment. -/
theorem lstrip_joinSpace {e : PyStr} (he : e ≠ []) (hfix : lstripFn e = e)
    (rest : List PyStr) : lstripFn (joinSpace (e :: rest)) = joinSpace (e :: rest) := by
  cases e with
  | nil => exact absurd rfl he
  | cons c r =>
    have hc : isPyWs c = false := head_of_dropWhile_fix hfix rfl
    cases rest with
    | nil => simpa [joinSpace, lstripFn, List.dropWhile_cons] using hfix
    | cons e2 rest2 =>
      rw [joinSpace_cons]
      simp [lstripFn, List.dropWhile_cons, hc]

/-- Right strip is the identity on an append whose non-empty right part
is right-stripped. -/
theorem rstrip_append {a b : PyStr} (hb : b ≠ []) (hfix : rstripFn b = b) :
    rstripFn (a ++ b) = a ++ b := by
  have hrev : List.dropWhile isPyWs b.reverse = b.reverse := by
    have := congrArg List.reverse hfix
    simpa [rstripFn] using this
  cases hbr : b.reverse with
  | nil => simp_all
  | cons c r =>
    have hc : isPyWs c = false := head_of_dropWhile_fix hrev hbr
    have key : List.reverse (a ++ b) = c :: (r ++ List.reverse a) := by
      rw [List.reverse_append, hbr]
      simp
    unfold rstripFn
    rw [key, List.dropWhile_cons]
    simp only [hc, Bool.false_eq_true, if_false]
    rw [← key, List.reverse_reverse]

/-- Right strip is the identity on a join of non-empty right-stripped
fragments. -/
theorem rstrip_joinSpace {l : List PyStr} (hne : l ≠ [])
    (h : ∀ e ∈ l, e ≠ [] ∧ rstripFn e = e) :
    rstripFn (joinSpace l) = joinSpace l := by
  induction l with
  | nil => exact absurd rfl hne
  | cons e rest ih =>
    cases rest with
    | nil =>
      have := h e (by simp)
      simpa [joinSpace] using this.2
    | cons e2 rest2 =>
      rw [joinSpace_cons]
      have hb : joinSpace (e2 :: rest2) ≠ [] :=
        joinSpace_ne_nil (h e2 (by simp)).1 rest2
      have hbfix : rstripFn (joinSpace (e2 :: rest2)) = joinSpace (e2 :: rest2) := by
        refine ih (by simp) ?_
        intro x hx
        exact h x (by simp [hx])
      have : rstripFn ((e ++ [' ']) ++ joinSpace (e2 :: rest2)) =
          (e ++ [' ']) ++ joinSpace (e2 :: rest2) := rstrip_append hb hbfix
      simpa using this

/-- Unfolding lemma for `dedupFirstSpec` on nil. -/
theorem dedupFirstSpec_nil : dedupFirstSpec [] = [] := by
  simp [dedupFirstSpec]

/-- Unfolding lemma for `dedupFirstSpec` on cons. -/
theorem dedupFirstSpec_cons (a : PyStr) (as : List PyStr) :
    dedupFirstSpec (a :: as) =
      a :: dedupFirstSpec (as.filter (fun b => pyLower b ≠ pyLower a)) := by
  simp [dedupFirstSpec]

/-- The imperative cleanup loop equals the declarative strip-filter-dedup
pipeline, for any starting `seen` set. -/
theorem cleanLoop_eq_dedup (seen : List PyStr) (ts : List PyStr) :
    cleanLoop seen ts =
      dedupFirstSpec ((ts.map pyStrip).filter
        (fun t => decide (t ≠ [] ∧ pyLower t ∉ seen))) := by
  induction ts generalizing seen with
  | nil => simp [cleanLoop, dedupFirstSpec_nil]
  | cons t ts ih =>
    simp only [List.map_cons, List.filter_cons]
    by_cases h : (pyStrip t ≠ [] ∧ pyLower (pyStrip t) ∉ seen)
    · rw [cleanLoop]
      simp only [if_pos h, decide_eq_true h, if_true]
      rw [dedupFirstSpec_cons, List.filter_filter, ih (pyLower (pyStrip t) :: seen)]
      congr 1
      apply congrArg dedupFirstSpec
      refine List.filter_congr ?_
      intro b _
      rw [← Bool.decide_and]
      apply decide_eq_decide.mpr
      simp only [List.mem_cons, not_or]
      tauto
    · rw [cleanLoop]
      simp only [if_neg h, decide_eq_false h, Bool.false_eq_true, if_false, ih seen]

/-- Every element the cleanup loop emits is a stripped, non-empty
fragment. -/
theorem cleanLoop_mem {seen ts : List PyStr} {e : PyStr}
    (he : e ∈ cleanLoop seen ts) : (∃ t, e = pyStrip t) ∧ e ≠ [] := by
  induction ts generalizing seen with
  | nil => simp [cleanLoop] at he
  | cons t ts ih =>
    rw [cleanLoop] at he
    by_cases h : (pyStrip t ≠ [] ∧ pyLower (pyStrip t) ∉ seen)
    · rw [if_pos h] at he
      rcases List.mem_cons.mp he with rfl | he'
      · exact ⟨⟨t, rfl⟩, h.1⟩
      · exact ih he'
    · rw [if_neg h] at he
      exact ih he

/-- The cleanup loop emits pairwise lowercase-distinct fragments, none
of whose lowercase forms lie in the starting `seen` set. -/
theorem cleanLoop_pairwise (seen ts : List PyStr) :
    (cleanLoop seen ts).Pairwise (fun a b => pyLower a ≠ pyLower b) ∧
      ∀ e ∈ cleanLoop seen ts, pyLower e ∉ seen := by
  induction ts generalizing seen with
  | nil => simp [cleanLoop]
  | cons t ts ih =>
    rw [cleanLoop]
    by_cases h : (pyStrip t ≠ [] ∧ pyLower (pyStrip t) ∉ seen)
    · rw [if_pos h]
      obtain ⟨ihp, ihm⟩ := ih (pyLower (pyStrip t) :: seen)
      constructor
      · rw [List.pairwise_cons]
        refine ⟨?_, ihp⟩
        intro b hb hEq
        have hnotin := ihm b hb
        rw [List.mem_cons] at hnotin
        exact hnotin (Or.inl hEq.symm)
      · intro e he
        rcases List.mem_cons.mp he with rfl | he'
        · exact h.2
        · have := ihm e he'
          rw [List.mem_cons] at this
          exact fun hseen => this (Or.inr hseen)
    · rw [if_neg h]
      exact ih seen

/-- Declarative dedup is the identity on a pairwise lowercase-distinct
list. -/
theorem dedupFirstSpec_eq_self {l : List PyStr}
    (h : l.Pairwise (fun a b => pyLower a ≠ pyLower b)) : dedupFirstSpec l = l := by
  induction l with
  | nil => exact dedupFirstSpec_nil
  | cons a as ih =>
    rw [List.pairwise_cons] at h
    rw [dedupFirstSpec_cons]
    have hf : as.filter (fun b => decide (pyLower b ≠ pyLower a)) = as := by
      rw [List.filter_eq_self]
      intro b hb
      exact decide_eq_true (Ne.symm (h.1 b hb))
    rw [hf, ih h.2]

/-- Refinement: `cleanFragments` equals the declarative strip-filter-dedup
pipeline. -/
theorem cleanFragments_eq (ts : List PyStr) :
    cleanFragments ts =
      dedupFirstSpec ((ts.map pyStrip).filter (fun t => decide (t ≠ []))) := by
  rw [cleanFragments, cleanLoop_eq_dedup]
  apply congrArg dedupFirstSpec
  refine List.filter_congr ?_
  intro b _
  apply decide_eq_decide.mpr
  simp

/-- Mapping `pyStrip` is the identity on a list of already-stripped
fragments. -/
theorem map_pyStrip_eq_self {l : List PyStr} (h : ∀ e ∈ l, ∃ t, e = pyStrip t) :
    l.map pyStrip = l := by
  induction l with
  | nil => rfl
  | cons e es ih =>
    obtain ⟨t, rfl⟩ := h e (by simp)
    rw [List.map_cons, pyStrip_pyStrip, ih]
    intro x hx
    exact h x (by simp [hx])

/-- Idempotence: `cleanFragments` is idempotent. -/
theorem cleanFragments_idem (ts : List PyStr) :
    cleanFragments (cleanFragments ts) = cleanFragments ts := by
  rw [cleanFragments_eq (cleanFragments ts)]
  have hmem : ∀ e ∈ cleanFragments ts, (∃ t, e = pyStrip t) ∧ e ≠ [] :=
    fun e he => cleanLoop_mem he
  rw [map_pyStrip_eq_self (fun e he => (hmem e he).1)]
  rw [List.filter_eq_self.mpr (fun e he => decide_eq_true (hmem e he).2)]
  exact dedupFirstSpec_eq_self (cleanLoop_pairwise [] ts).1

/-- The trailing `.strip()` on the joined cleaned fragments is a no-op:
the combined text is exactly the fragments joined by single spaces. -/
theorem combineText_eq_join (ts : List PyStr) :
    combineText ts = joinSpace (cleanFragments ts) := by
  unfold combineText
  cases hL : cleanFragments ts with
  | nil => rfl
  | cons e rest =>
    have hmem : ∀ x ∈ cleanFragments ts, (∃ t, x = pyStrip t) ∧ x ≠ [] :=
      fun x hx => cleanLoop_mem hx
    rw [hL] at hmem
    have hfix : ∀ x ∈ e :: rest, x ≠ [] ∧ lstripFn x = x ∧ rstripFn x = x := by
      intro x hx
      obtain ⟨⟨t, rfl⟩, hne⟩ := hmem x hx
      exact ⟨hne, (pyStrip_fixed t).1, (pyStrip_fixed t).2⟩
    have he := hfix e (by simp)
    unfold pyStrip
    rw [lstrip_joinSpace he.1 he.2.1 rest]
    exact rstrip_joinSpace (by simp)
      (fun x hx => ⟨(hfix x hx).1, (hfix x hx).2.2⟩)

/-- A caught gathering exception yields the empty extracted string. -/
theorem extractText_of_gather_error {v : PyVal} {e : PyExc}
    (h : gatherTexts v = .error e) : extractText v = .ok [] := by
  unfold extractText
  rw [h]

/-- A falsy `outputs` yields the empty extracted string. -/
theorem extractText_of_gather_none {v : PyVal}
    (h : gatherTexts v = .ok Option.none) : extractText v = .ok [] := by
  unfold extractText
  rw [h]

/-- No gathered fragments yield the empty extracted string. -/
theorem extractText_of_gather_empty {v : PyVal}
    (h : gatherTexts v = .ok (some [])) : extractText v = .ok [] := by
  unfold extractText
  rw [h]
  rfl

/-- The cleanup loop cannot raise when every gathered text is a
string. -/
theorem cleanupLoop_str_ok {ts : List PyVal} (seen : List PyStr)
    (h : ∀ t ∈ ts, isStr t = true) : ∃ out, cleanupLoop seen ts = .ok out := by
  induction ts generalizing seen with
  | nil => exact ⟨[], rfl⟩
  | cons t ts ih =>
    have ht := h t (by simp)
    cases t with
    | str s =>
      have hrest : ∀ x ∈ ts, isStr x = true := fun x hx => h x (by simp [hx])
      rw [cleanupLoop]
      by_cases hc : (pyStrip s ≠ [] ∧ pyLower (pyStrip s) ∉ seen)
      · obtain ⟨out, hout⟩ := ih (pyLower (pyStrip s) :: seen) hrest
        refine ⟨pyStrip s :: out, ?_⟩
        simp [pyStripVal, bind, Except.bind, Functor.map, Except.map, pure, Except.pure, hc, hout]
      · obtain ⟨out, hout⟩ := ih seen hrest
        refine ⟨out, ?_⟩
        simp [pyStripVal, bind, Except.bind, Functor.map, Except.map, pure, Except.pure, hc, hout]
    | none => simp [isStr] at ht
    | bool b => simp [isStr] at ht
    | int n => simp [isStr] at ht
    | list xs => simp [isStr] at ht
    | dict kvs => simp [isStr] at ht

/-- A call of `tmdb_search` with a configured key and empty query returns
the
"Empty query" no-match without touching the network. -/
theorem tmdbSearch_empty_query {k : PyStr} (f : Unit → TmdbRemote) (hk : k ≠ []) :
    tmdbSearch k [] f = (.noMatch "Empty query".toList, false) := by
  unfold tmdbSearch
  rw [if_neg hk, if_pos rfl]

/-- A call of `tmdb_search` with a configured key and non-empty query
always makes
the remote call. -/
theorem tmdbSearch_network {k q : PyStr} (f : Unit → TmdbRemote)
    (hk : k ≠ []) (hq : q ≠ []) : (tmdbSearch k q f).2 = true := by
  unfold tmdbSearch
  rw [if_neg hk, if_neg hq]
  by_cases hs : (f ()).status ≠ 200
  · simp [hs]
  · rcases hr : (f ()).results with _ | ⟨_ | ⟨b, rest⟩⟩ <;> simp [hs, hr]

/-- A call of `tmdb_search` on a non-200 upstream status returns the
"TMDB error" payload carrying the upstream status and body. -/
theorem tmdbSearch_upstream {k q : PyStr} (f : Unit → TmdbRemote)
    (hk : k ≠ []) (hq : q ≠ []) (hs : (f ()).status ≠ 200) :
    tmdbSearch k q f =
      (.upstreamErr "TMDB error".toList (f ()).status ((f ()).text.take 500), true) := by
  unfold tmdbSearch
  rw [if_neg hk, if_neg hq]
  simp [hs]

/-- A call of `tmdb_search` on a 200 status with malformed JSON propagates
the
decode exception. -/
theorem tmdbSearch_json {k q : PyStr} (f : Unit → TmdbRemote)
    (hk : k ≠ []) (hq : q ≠ []) (hs : (f ()).status = 200)
    (hr : (f ()).results = Option.none) : tmdbSearch k q f = (.jsonErr, true) := by
  unfold tmdbSearch
  rw [if_neg hk, if_neg hq]
  simp [hs, hr]

/-- A call of `tmdb_search` on a 200 status with an empty results list
returns the
"No results" no-match. -/
theorem tmdbSearch_noResults {k q : PyStr} (f : Unit → TmdbRemote)
    (hk : k ≠ []) (hq : q ≠ []) (hs : (f ()).status = 200)
    (hr : (f ()).results = some []) :
    tmdbSearch k q f = (.noMatch "No results".toList, true) := by
  unfold tmdbSearch
  rw [if_neg hk, if_neg hq]
  simp [hs, hr]

/-- A call of `tmdb_search` on a 200 status picks the first result
unconditionally
(no category filter). -/
theorem tmdbSearch_first {k q : PyStr} {f : Unit → TmdbRemote}
    {best : TmdbItem} {rest : List TmdbItem}
    (hk : k ≠ []) (hq : q ≠ []) (hs : (f ()).status = 200)
    (hr : (f ()).results = some (best :: rest)) :
    tmdbSearch k q f =
      (.matchFound best.media_type best.tmdbId
        (firstTruthyStr [best.title, best.name])
        (firstTruthyStr [best.overview])
        (firstTruthyStr [best.release_date, best.first_air_date])
        (posterUrl best.poster_path), true) := by
  unfold tmdbSearch
  rw [if_neg hk, if_neg hq]
  simp [hs, hr]

/-- All four Clarifai environment settings are configured. -/
def clarifaiConfigured (cfg : Config) : Prop :=
  cfg.clarifaiPat ≠ [] ∧ cfg.clarifaiUserId ≠ [] ∧
    cfg.clarifaiAppId ≠ [] ∧ cfg.clarifaiModelId ≠ []

/-- A call of `clarifai_ocr` raises a 502 `HTTPException` carrying the
upstream
status and body whenever the upstream status is not 200. -/
theorem clarifaiOcr_upstream {cfg : Config} (f : Unit → ClarifaiRemote)
    (hc : clarifaiConfigured cfg) (hs : (f ()).status ≠ 200) :
    clarifaiOcr cfg f =
      (.httpErr 502 (.requestFailed (f ()).status ((f ()).text.take 1000)), true) := by
  obtain ⟨h1, h2, h3, h4⟩ := hc
  unfold clarifaiOcr
  rw [if_neg h1, if_neg h2, if_neg h3, if_neg h4]
  simp [hs]

/-- A call of `clarifai_ocr` propagates the JSON decode exception on a 200
status
with a malformed body. -/
theorem clarifaiOcr_json {cfg : Config} (f : Unit → ClarifaiRemote)
    (hc : clarifaiConfigured cfg) (hs : (f ()).status = 200)
    (hj : (f ()).json = Option.none) : clarifaiOcr cfg f = (.jsonErr, true) := by
  obtain ⟨h1, h2, h3, h4⟩ := hc
  unfold clarifaiOcr
  rw [if_neg h1, if_neg h2, if_neg h3, if_neg h4]
  simp [hs, hj]

/-- A call of `clarifai_ocr` raises a 502 `HTTPException` carrying the
in-JSON
status object when the decoded body holds a truthy status with a
non-success code. -/
theorem clarifaiOcr_nonSuccess {cfg : Config} {data status code : PyVal}
    (f : Unit → ClarifaiRemote)
    (hc : clarifaiConfigured cfg) (hs : (f ()).status = 200)
    (hj : (f ()).json = some data)
    (hst : pyGetD data "status".toList (.dict []) = .ok status)
    (htr : pyTruthy status = true)
    (hcode : pyGetD status "code".toList .none = .ok code)
    (hbad : isNoneOr10000 code = false) :
    clarifaiOcr cfg f = (.httpErr 502 (.nonSuccess status), true) := by
  obtain ⟨h1, h2, h3, h4⟩ := hc
  have hst2 : pyGetD data ['s', 't', 'a', 't', 'u', 's'] (PyVal.dict []) = .ok status := hst
  have hcode2 : pyGetD status ['c', 'o', 'd', 'e'] PyVal.none = .ok code := hcode
  unfold clarifaiOcr
  rw [if_neg h1, if_neg h2, if_neg h3, if_neg h4]
  simp [hs, hj, hst2, htr, hcode2, hbad]

/-- A 401 from the auth dependency short-circuits the endpoint: no
remote call is made. -/
theorem identifyScreen_auth_reject {cfg : Config} {a : Option PyStr}
    {contents : PyStr} {d : PyStr}
    (cf : Unit → ClarifaiRemote) (tf : Unit → TmdbRemote)
    (h : bearerAuth cfg.apiBearerToken a = .reject d) :
    identifyScreen cfg a contents cf tf = (.err 401 d, false, false) := by
  unfold identifyScreen
  rw [h]

/-- A Clarifai-side `HTTPException` is re-raised unchanged by the
endpoint, before any TMDB call. -/
theorem identifyScreen_clarifai_http {cfg : Config} {a : Option PyStr}
    {contents : PyStr} {s : Nat} {d : ClarifaiDetail} {called : Bool}
    (cf : Unit → ClarifaiRemote) (tf : Unit → TmdbRemote)
    (ha : bearerAuth cfg.apiBearerToken a = .ok) (hcont : contents ≠ [])
    (h : clarifaiOcr cfg cf = (.httpErr s d, called)) :
    identifyScreen cfg a contents cf tf = (.errClarifai s d, called, false) := by
  unfold identifyScreen
  rw [ha, if_neg hcont, h]

/-- A Clarifai-side JSON decode exception becomes a generic 500. -/
theorem identifyScreen_clarifai_json {cfg : Config} {a : Option PyStr}
    {contents : PyStr} {called : Bool}
    (cf : Unit → ClarifaiRemote) (tf : Unit → TmdbRemote)
    (ha : bearerAuth cfg.apiBearerToken a = .ok) (hcont : contents ≠ [])
    (h : clarifaiOcr cfg cf = (.jsonErr, called)) :
    identifyScreen cfg a contents cf tf =
      (.err 500 "Server error".toList, called, false) := by
  unfold identifyScreen
  rw [ha, if_neg hcont, h]

/-- With a successful Clarifai call, the endpoint returns a 200 JSON
payload embedding whatever dict `tmdb_search` returned. -/
theorem identifyScreen_tmdb_payload {cfg : Config} {a : Option PyStr}
    {contents : PyStr} {data : PyVal} {ocrText : PyStr} {called tc : Bool}
    {out : TmdbOutcome}
    (cf : Unit → ClarifaiRemote) (tf : Unit → TmdbRemote)
    (ha : bearerAuth cfg.apiBearerToken a = .ok) (hcont : contents ≠ [])
    (h : clarifaiOcr cfg cf = (.ok data, called))
    (hx : extractText data = .ok ocrText)
    (ht : tmdbSearch cfg.tmdbApiKey (guessTitle ocrText) tf = (out, tc))
    (hnot : (∀ m, out ≠ .runtimeErr m) ∧ out ≠ .jsonErr) :
    identifyScreen cfg a contents cf tf =
      (.okJson ocrText (guessTitle ocrText) out, called, tc) := by
  unfold identifyScreen
  simp only [ha, h, hx, ht, if_neg hcont]
  cases out with
  | runtimeErr m => exact absurd rfl (hnot.1 m)
  | jsonErr => exact absurd rfl hnot.2
  | noMatch r => rfl
  | upstreamErr r sc b => rfl
  | matchFound m i t o rd p => rfl

/-- With a non-empty configured token, `bearer_auth` passes exactly the
headers of the form `Bearer <token>`: a space-separated two-part header
whose scheme lowercases to "bearer" and whose remainder strips to the
configured token. -/
theorem bearerAuth_ok_iff {tok : PyStr} (a : Option PyStr) (ht : tok ≠ []) :
    bearerAuth tok a = .ok ↔
      ∃ s rest, a = some s ∧ (pySplit1 s).2 = some rest ∧
        pyLower (pySplit1 s).1 = "bearer".toList ∧ pyStrip rest = tok := by
  unfold bearerAuth
  rw [if_neg ht]
  cases a with
  | none => simp
  | some s =>
    by_cases hs : s = []
    · subst hs
      simp [pySplit1]
    · simp only [if_neg hs]
      rcases hps : pySplit1 s with ⟨p1, p2⟩
      cases p2 with
      | none => simp [hps]
      | some rest =>
        by_cases h1 : pyLower p1 = "bearer".toList
        · by_cases h2 : pyStrip rest = tok
          · simp [hps, h1, h2]
          · simp [hps, h1, h2]
        · have h1b : ¬pyLower p1 = ['b', 'e', 'a', 'r', 'e', 'r'] := h1
          simp [hps, h1b]

/-- Dropping whitespace is the identity on a replicate of 'a'. -/
theorem dropWhile_isPyWs_replicate (n : Nat) :
    List.dropWhile isPyWs (List.replicate n 'a') = List.replicate n 'a' := by
  induction n with
  | zero => rfl
  | succ m ih => simp [List.replicate_succ, List.dropWhile_cons, isPyWs]

/-- Stripping is the identity on a replicate of 'a'. -/
theorem pyStrip_replicate (n : Nat) :
    pyStrip (List.replicate n 'a') = List.replicate n 'a' := by
  unfold pyStrip lstripFn rstripFn
  rw [dropWhile_isPyWs_replicate, List.reverse_replicate,
    dropWhile_isPyWs_replicate, List.reverse_replicate]

/-- A concrete TMDB fetch whose first (and only) result is a person. -/
def personFetch : Unit → TmdbRemote := fun _ =>
  ⟨200, [], some [⟨some "person".toList, Option.none, some "Tom Hanks".toList,
    Option.none, Option.none, Option.none, Option.none, some 31⟩]⟩

/-- C1 counterexample: with a configured key, a non-empty query and a
200 response whose first result has `media_type` "person",
`tmdb_search` returns that person as the title match — the claimed
{movie, show} category filter does not exist in the code. -/
theorem c1_counterexample :
    tmdbSearch "k".toList "abc".toList personFetch =
      (.matchFound (some "person".toList) (some 31) "Tom Hanks".toList [] []
        Option.none, true) ∧
      some "person".toList ≠ some "movie".toList ∧
      some "person".toList ≠ some "show".toList ∧
      some "person".toList ≠ some "tv".toList :=
  ⟨rfl, by decide, by decide, by decide⟩

/-- C1 (amended): the selected best match is the first element of the
raw results list, unconditionally — no category filter is applied, so a
result of any `media_type` (including person) is returned as the title
match. -/
theorem c1_first_result_unfiltered (k q : PyStr) (f : Unit → TmdbRemote)
    (best : TmdbItem) (rest : List TmdbItem)
    (hk : k ≠ []) (hq : q ≠ []) (hs : (f ()).status = 200)
    (hr : (f ()).results = some (best :: rest)) :
    tmdbSearch k q f =
      (.matchFound best.media_type best.tmdbId
        (firstTruthyStr [best.title, best.name])
        (firstTruthyStr [best.overview])
        (firstTruthyStr [best.release_date, best.first_air_date])
        (posterUrl best.poster_path), true) :=
  tmdbSearch_first hk hq hs hr

/-- A concrete TMDB fetch whose only result is a movie. -/
def movieFetch : Unit → TmdbRemote := fun _ =>
  ⟨200, [], some [⟨some "movie".toList, some "Inception".toList, Option.none,
    Option.none, Option.none, Option.none, Option.none, some 27205⟩]⟩

/-- C1 witness: the amended first-result rule evaluated on a concrete
200 response. -/
theorem c1_first_result_unfiltered_witness :
    tmdbSearch "k".toList "abc".toList movieFetch =
      (.matchFound (some "movie".toList) (some 27205) "Inception".toList [] []
        Option.none, true) :=
  c1_first_result_unfiltered "k".toList "abc".toList movieFetch _ _
    (by decide) (by decide) rfl rfl

/-- C2: tier boundaries of the (spec-modelled) confidence-tier function:
with s the clamped top score, the tier is high iff s ≥ HIGH_CONF, medium
iff MED_CONF ≤ s < HIGH_CONF, low iff 0 ≤ s < MED_CONF, and none iff the
candidate list is empty. -/
theorem c2_tier_boundaries (cands : List ℚ) :
    (assignTier cands = .none ↔ cands = []) ∧
    (cands ≠ [] →
      ((assignTier cands = .high ↔ HIGH_CONF ≤ clamp01 (topScore cands)) ∧
       (assignTier cands = .medium ↔
         MED_CONF ≤ clamp01 (topScore cands) ∧
           clamp01 (topScore cands) < HIGH_CONF) ∧
       (assignTier cands = .low ↔
         0 ≤ clamp01 (topScore cands) ∧
           clamp01 (topScore cands) < MED_CONF))) := by
  cases cands with
  | nil => simp [assignTier]
  | cons s rest =>
    have h0 : (0 : ℚ) ≤ clamp01 (topScore (s :: rest)) := le_max_left _ _
    have hMH : MED_CONF < HIGH_CONF := by norm_num [MED_CONF, HIGH_CONF]
    constructor
    · simp only [assignTier]
      constructor
      · intro h
        split_ifs at h
      · intro h
        exact absurd h (by simp)
    · intro _
      simp only [assignTier]
      split_ifs with hH hM
      · refine ⟨by simp [hH], ?_, ?_⟩
        · simp only [reduceCtorEq, false_iff]
          intro hc
          exact absurd hH (not_le.mpr hc.2)
        · simp only [reduceCtorEq, false_iff]
          intro hc
          exact absurd hH (not_le.mpr (hc.2.trans hMH))
      · refine ⟨?_, by simp [hM, not_le.mp hH], ?_⟩
        · simp only [reduceCtorEq, false_iff]
          intro hc
          exact hH hc
        · simp only [reduceCtorEq, false_iff]
          intro hc
          exact absurd hM (not_le.mpr hc.2)
      · refine ⟨?_, ?_, by simp [h0, not_le.mp hM]⟩
        · simp only [reduceCtorEq, false_iff]
          intro hc
          exact hH hc
        · simp only [reduceCtorEq, false_iff]
          intro hc
          exact hM hc.1

/-- C2 witness: a single candidate scoring 0.9 lands in the high
tier. -/
theorem c2_tier_boundaries_witness :
    ([(9 : ℚ) / 10] ≠ ([] : List ℚ)) ∧
      (assignTier [(9 : ℚ) / 10] = .high ↔
        HIGH_CONF ≤ clamp01 (topScore [(9 : ℚ) / 10])) :=
  ⟨by simp, ((c2_tier_boundaries [(9 : ℚ) / 10]).2 (by simp)).1⟩

/-- A concrete TMDB fetch returning 200 with an empty results list. -/
def emptyResultsFetch : Unit → TmdbRemote := fun _ => ⟨200, [], some []⟩

/-- C3 counterexample: the query "  " trims to length 0 (< 3), yet
`tmdb_search` makes the remote call — the claimed trimmed-length < 3
rejection does not exist in the code, which only tests `if not query`. -/
theorem c3_counterexample :
    (pyStrip "  ".toList).length < 3 ∧
      (tmdbSearch "k".toList "  ".toList emptyResultsFetch).2 = true ∧
      tmdbSearch "k".toList "  ".toList emptyResultsFetch =
        (.noMatch "No results".toList, true) :=
  ⟨by decide, rfl, rfl⟩

/-- C3 (amended): only the empty query short-circuits to the
"Empty query" no-match without a network call; every non-empty query —
whitespace-only and one/two-character queries included — triggers the
remote search call. -/
theorem c3_empty_only_short_circuit (k q : PyStr) (f : Unit → TmdbRemote)
    (hk : k ≠ []) :
    (q = [] → tmdbSearch k q f = (.noMatch "Empty query".toList, false)) ∧
      (q ≠ [] → (tmdbSearch k q f).2 = true) := by
  constructor
  · intro hq
    subst hq
    exact tmdbSearch_empty_query f hk
  · intro hq
    exact tmdbSearch_network f hk hq

/-- C3 witness: the empty-query short-circuit and the two-character
network call, both on concrete inputs. -/
theorem c3_empty_only_short_circuit_witness :
    tmdbSearch "k".toList [] emptyResultsFetch =
        (.noMatch "Empty query".toList, false) ∧
      (tmdbSearch "k".toList "ab".toList emptyResultsFetch).2 = true :=
  ⟨(c3_empty_only_short_circuit "k".toList [] emptyResultsFetch (by decide)).1 rfl,
   (c3_empty_only_short_circuit "k".toList "ab".toList emptyResultsFetch
      (by decide)).2 (by decide)⟩

/-- C4 counterexample: a single 5001-character fragment passes through
consolidation unchanged, so the combined text has length 5001 — the
claimed 5000-character cap does not exist in the code. -/
theorem c4_counterexample :
    combineText [List.replicate 5001 'a'] = List.replicate 5001 'a' ∧
      5000 < (combineText [List.replicate 5001 'a']).length := by
  have hstrip := pyStrip_replicate 5001
  have hne : List.replicate 5001 'a' ≠ [] := by
    intro h
    have h2 := congrArg List.length h
    rw [List.length_replicate] at h2
    exact absurd h2 (by norm_num)
  have hclean : cleanFragments [List.replicate 5001 'a'] = [List.replicate 5001 'a'] := by
    unfold cleanFragments cleanLoop
    rw [if_pos ⟨by rw [hstrip]; exact hne, List.not_mem_nil _⟩, hstrip]
    rfl
  have hc : combineText [List.replicate 5001 'a'] = List.replicate 5001 'a' := by
    unfold combineText
    rw [hclean]
    show pyStrip (List.replicate 5001 'a') = _
    exact hstrip
  refine ⟨hc, ?_⟩
  rw [hc, List.length_replicate]
  norm_num

/-- C4 (amended): the combined text equals the cleaned fragments joined
with single spaces (the trailing strip is a no-op); no maximum-length
truncation is applied. -/
theorem c4_join_without_cap (ts : List PyStr) :
    combineText ts = joinSpace (cleanFragments ts) :=
  combineText_eq_join ts

/-- C5: consolidation strips each fragment, drops the ones that become
empty, and deduplicates case-insensitively with the first occurrence
winning and order preserved — it equals the declarative
strip/filter/first-wins-dedup pipeline; and the spec's concrete example
holds. -/
theorem c5_clean_dedup :
    (∀ ts : List PyStr, cleanFragments ts =
      dedupFirstSpec ((ts.map pyStrip).filter (fun t => decide (t ≠ [])))) ∧
      cleanFragments ["Inception".toList, "inception".toList] =
        ["Inception".toList] :=
  ⟨cleanFragments_eq, by decide⟩

/-- C6: OCR consolidation is idempotent — re-consolidating the
fragments of a consolidation result reproduces it exactly. -/
theorem c6_consolidate_idem (ts : List PyStr) :
    consolidate ((consolidate ts).fragments) = consolidate ts := by
  simp only [consolidate]
  rw [combineText_eq_join, combineText_eq_join, cleanFragments_idem ts]

/-- A concrete Clarifai fetch whose OCR payload reads "Inception". -/
def inceptionFetch : Unit → ClarifaiRemote := fun _ =>
  ⟨200, [], some (.dict [("outputs".toList, .list [.dict [("data".toList,
    .dict [("text".toList, .dict [("raw".toList,
      .str "Inception".toList)])])]])])⟩

/-- A concrete failing TMDB fetch: HTTP 404 with body "oops". -/
def notFoundFetch : Unit → TmdbRemote := fun _ => ⟨404, "oops".toList, some []⟩

/-- An unauthenticated configuration with all remote credentials set. -/
def openConfig : Config :=
  ⟨[], "p".toList, "u".toList, "a".toList, "m".toList, "k".toList⟩

/-- C7 counterexample: a metadata-API 404 is not surfaced in the 502
category — the whole request still returns the 200 JSON payload, with
the failure recorded only inside the `tmdb` dict. -/
theorem c7_counterexample :
    identifyScreen openConfig Option.none "x".toList inceptionFetch notFoundFetch =
      (.okJson "Inception".toList "Inception".toList
        (.upstreamErr "TMDB error".toList 404 "oops".toList), true, true) ∧
      (notFoundFetch ()).status = 404 :=
  ⟨rfl, rfl⟩

/-- C7 (amended): Clarifai non-200 responses raise a 502 carrying the
upstream status and body, and that 502 reaches the caller; a TMDB
non-200 response instead yields a `found = False` payload with reason
"TMDB error" and the upstream status — distinguishable from the
no-match reasons but delivered inside a 200 response; malformed JSON
from either API raises the decode exception (translated to a 500), not
a 502. -/
theorem c7_upstream_vs_nomatch :
    (∀ (cfg : Config) (f : Unit → ClarifaiRemote), clarifaiConfigured cfg →
      (f ()).status ≠ 200 →
      clarifaiOcr cfg f =
        (.httpErr 502 (.requestFailed (f ()).status ((f ()).text.take 1000)),
          true)) ∧
    (∀ (cfg : Config) (a : Option PyStr) (contents : PyStr) (s : Nat)
        (d : ClarifaiDetail) (called : Bool) (cf : Unit → ClarifaiRemote)
        (tf : Unit → TmdbRemote),
      bearerAuth cfg.apiBearerToken a = .ok → contents ≠ [] →
      clarifaiOcr cfg cf = (.httpErr s d, called) →
      identifyScreen cfg a contents cf tf = (.errClarifai s d, called, false)) ∧
    (∀ (k q : PyStr) (f : Unit → TmdbRemote), k ≠ [] → q ≠ [] →
      (f ()).status ≠ 200 →
      tmdbSearch k q f =
          (.upstreamErr "TMDB error".toList (f ()).status
            ((f ()).text.take 500), true) ∧
        "TMDB error".toList ≠ "No results".toList ∧
        "TMDB error".toList ≠ "Empty query".toList) ∧
    (∀ (k q : PyStr) (f : Unit → TmdbRemote), k ≠ [] → q ≠ [] →
      (f ()).status = 200 → (f ()).results = Option.none →
      tmdbSearch k q f = (.jsonErr, true)) ∧
    (∀ (cfg : Config) (f : Unit → ClarifaiRemote), clarifaiConfigured cfg →
      (f ()).status = 200 → (f ()).json = Option.none →
      clarifaiOcr cfg f = (.jsonErr, true)) := by
  refine ⟨?_, ?_, ?_, ?_, ?_⟩
  · intro cfg f hc hs
    exact clarifaiOcr_upstream f hc hs
  · intro cfg a contents s d called cf tf ha hcont h
    exact identifyScreen_clarifai_http cf tf ha hcont h
  · intro k q f hk hq hs
    exact ⟨tmdbSearch_upstream f hk hq hs, by decide, by decide⟩
  · intro k q f hk hq hs hr
    exact tmdbSearch_json f hk hq hs hr
  · intro cfg f hc hs hj
    exact clarifaiOcr_json f hc hs hj

/-- A concrete Clarifai fetch with a 503 upstream failure. -/
def clarifaiDownFetch : Unit → ClarifaiRemote := fun _ =>
  ⟨503, "unavailable".toList, Option.none⟩

/-- A concrete Clarifai fetch returning 200 with a malformed body. -/
def clarifaiBadJsonFetch : Unit → ClarifaiRemote := fun _ =>
  ⟨200, "not json".toList, Option.none⟩

/-- A concrete TMDB fetch returning 200 with a malformed body. -/
def tmdbBadJsonFetch : Unit → TmdbRemote := fun _ =>
  ⟨200, "not json".toList, Option.none⟩

/-- C7 witness: each clause of the upstream-failure taxonomy evaluated
on concrete inputs. -/
theorem c7_upstream_vs_nomatch_witness :
    clarifaiOcr openConfig clarifaiDownFetch =
        (.httpErr 502 (.requestFailed 503 "unavailable".toList), true) ∧
      identifyScreen openConfig Option.none "x".toList clarifaiDownFetch
          notFoundFetch =
        (.errClarifai 502 (.requestFailed 503 "unavailable".toList), true,
          false) ∧
      tmdbSearch "k".toList "abc".toList notFoundFetch =
        (.upstreamErr "TMDB error".toList 404 "oops".toList, true) ∧
      tmdbSearch "k".toList "abc".toList tmdbBadJsonFetch = (.jsonErr, true) ∧
      clarifaiOcr openConfig clarifaiBadJsonFetch = (.jsonErr, true) := by
  have h := c7_upstream_vs_nomatch
  refine ⟨?_, ?_, ?_, ?_, ?_⟩
  · exact h.1 openConfig clarifaiDownFetch
      ⟨by decide, by decide, by decide, by decide⟩ (by decide)
  · refine h.2.1 openConfig Option.none "x".toList 502
      (.requestFailed 503 "unavailable".toList) true clarifaiDownFetch
      notFoundFetch rfl (by decide) ?_
    exact h.1 openConfig clarifaiDownFetch
      ⟨by decide, by decide, by decide, by decide⟩ (by decide)
  · exact (h.2.2.1 "k".toList "abc".toList notFoundFetch (by decide) (by decide)
      (by decide)).1
  · exact h.2.2.2.1 "k".toList "abc".toList tmdbBadJsonFetch (by decide)
      (by decide) rfl rfl
  · exact h.2.2.2.2 openConfig clarifaiBadJsonFetch
      ⟨by decide, by decide, by decide, by decide⟩ rfl rfl

/-- C8: with no OCR fragments the extracted text is empty, and
`tmdb_search` on the (empty) query short-circuits to the "Empty query"
no-match without a remote call; end to end, the request returns the
no-match payload having made no TMDB call. -/
theorem c8_empty_ocr_short_circuit :
    (∀ data : PyVal, gatherTexts data = .ok Option.none →
      extractText data = .ok []) ∧
    (∀ data : PyVal, gatherTexts data = .ok (some []) →
      extractText data = .ok []) ∧
    (∀ (k : PyStr) (f : Unit → TmdbRemote), k ≠ [] →
      tmdbSearch k [] f = (.noMatch "Empty query".toList, false)) ∧
    (∀ (cfg : Config) (a : Option PyStr) (contents : PyStr)
        (cf : Unit → ClarifaiRemote) (tf : Unit → TmdbRemote) (data : PyVal)
        (called : Bool),
      bearerAuth cfg.apiBearerToken a = .ok → contents ≠ [] →
      clarifaiOcr cfg cf = (.ok data, called) → extractText data = .ok [] →
      cfg.tmdbApiKey ≠ [] →
      identifyScreen cfg a contents cf tf =
        (.okJson [] [] (.noMatch "Empty query".toList), called, false)) := by
  refine ⟨?_, ?_, ?_, ?_⟩
  · intro data h
    exact extractText_of_gather_none h
  · intro data h
    exact extractText_of_gather_empty h
  · intro k f hk
    exact tmdbSearch_empty_query f hk
  · intro cfg a contents cf tf data called ha hcont hoc hx hk
    have hguess : guessTitle [] = [] := rfl
    have ht : tmdbSearch cfg.tmdbApiKey (guessTitle []) tf =
        (.noMatch "Empty query".toList, false) := by
      rw [hguess]
      exact tmdbSearch_empty_query tf hk
    have := identifyScreen_tmdb_payload cf tf ha hcont hoc hx ht
      ⟨fun m => by simp, by simp⟩
    rw [hguess] at this
    exact this

/-- A vision payload whose outputs list is empty. -/
def noOutputsData : PyVal := .dict [("outputs".toList, .list [])]

/-- A vision payload with one output carrying no text at all. -/
def noFragmentsData : PyVal := .dict [("outputs".toList, .list [.dict []])]

/-- A concrete Clarifai fetch returning the fragment-free payload. -/
def noFragmentsFetch : Unit → ClarifaiRemote := fun _ =>
  ⟨200, [], some noFragmentsData⟩

/-- C8 witness: all four clauses on concrete inputs, including the full
no-fragment pipeline. -/
theorem c8_empty_ocr_short_circuit_witness :
    extractText noOutputsData = .ok [] ∧
      extractText noFragmentsData = .ok [] ∧
      tmdbSearch "k".toList [] notFoundFetch =
        (.noMatch "Empty query".toList, false) ∧
      identifyScreen openConfig Option.none "x".toList noFragmentsFetch
          notFoundFetch =
        (.okJson [] [] (.noMatch "Empty query".toList), true, false) := by
  have h := c8_empty_ocr_short_circuit
  refine ⟨h.1 noOutputsData rfl, h.2.1 noFragmentsData rfl,
    h.2.2.1 "k".toList notFoundFetch (by decide), ?_⟩
  exact h.2.2.2 openConfig Option.none "x".toList noFragmentsFetch notFoundFetch
    noFragmentsData true rfl (by decide) rfl rfl (by decide)

/-- C9: with an empty configured token every request passes auth; with a
non-empty token, a request passes iff its Authorization header is a
two-part `Bearer <token>` whose scheme lowercases to "bearer" and whose
remainder strips to the configured token — and any rejection is a 401
issued before the endpoint body runs (no upstream call is made). -/
theorem c9_bearer_gate :
    (∀ a : Option PyStr, bearerAuth [] a = .ok) ∧
    (∀ (tok : PyStr) (a : Option PyStr), tok ≠ [] →
      (bearerAuth tok a = .ok ↔
        ∃ s rest, a = some s ∧ (pySplit1 s).2 = some rest ∧
          pyLower (pySplit1 s).1 = "bearer".toList ∧ pyStrip rest = tok)) ∧
    (∀ (cfg : Config) (a : Option PyStr) (contents : PyStr)
        (cf : Unit → ClarifaiRemote) (tf : Unit → TmdbRemote) (d : PyStr),
      bearerAuth cfg.apiBearerToken a = .reject d →
      identifyScreen cfg a contents cf tf = (.err 401 d, false, false)) := by
  refine ⟨?_, ?_, ?_⟩
  · intro a
    rfl
  · intro tok a ht
    exact bearerAuth_ok_iff a ht
  · intro cfg a contents cf tf d h
    exact identifyScreen_auth_reject cf tf h

/-- A configuration requiring the bearer token "secret". -/
def secretConfig : Config :=
  ⟨"secret".toList, "p".toList, "u".toList, "a".toList, "m".toList, "k".toList⟩

/-- C9 witness: auth disabled passes without a header; the well-formed
header passes against token "secret"; a missing header is rejected with
a 401 response and no upstream call. -/
theorem c9_bearer_gate_witness :
    bearerAuth [] Option.none = .ok ∧
      bearerAuth "secret".toList (some "Bearer secret".toList) = .ok ∧
      identifyScreen secretConfig Option.none "x".toList inceptionFetch
          notFoundFetch =
        (.err 401 "Missing Authorization header".toList, false, false) := by
  have h := c9_bearer_gate
  refine ⟨h.1 Option.none, ?_, ?_⟩
  · exact (h.2.1 "secret".toList (some "Bearer secret".toList) (by decide)).mpr
      ⟨"Bearer secret".toList, "secret".toList, rfl, by decide, by decide,
        by decide⟩
  · exact h.2.2 secretConfig Option.none "x".toList inceptionFetch notFoundFetch
      "Missing Authorization header".toList rfl

/-- A vision payload whose raw text field holds the number 1 instead of
a string. -/
def nonStringRawData : PyVal :=
  .dict [("outputs".toList, .list [.dict [("data".toList,
    .dict [("text".toList, .dict [("raw".toList, .int 1)])])]])]

/-- C10 counterexample: on a dictionary whose (truthy) raw text field is
a number, the gathered value reaches the cleanup loop outside the `try`
block and `t.strip()` raises an uncaught AttributeError — the extraction
is not total. -/
theorem c10_counterexample :
    extractText nonStringRawData = .error .attrError := rfl

/-- C10 (amended): a gathering failure or a falsy outputs list yields
the empty string, and the extraction returns a string whenever every
gathered text value is a Python string; (totality fails only when a
truthy non-string sits in a gathered text field, as the counterexample
shows). -/
theorem c10_total_on_string_texts :
    (∀ (v : PyVal) (e : PyExc), gatherTexts v = .error e →
      extractText v = .ok []) ∧
    (∀ v : PyVal, gatherTexts v = .ok Option.none → extractText v = .ok []) ∧
    (∀ (v : PyVal) (texts : List PyVal), gatherTexts v = .ok (some texts) →
      (∀ t ∈ texts, isStr t = true) → ∃ s, extractText v = .ok s) := by
  refine ⟨?_, ?_, ?_⟩
  · intro v e h
    exact extractText_of_gather_error h
  · intro v h
    exact extractText_of_gather_none h
  · intro v texts h hstr
    obtain ⟨out, hout⟩ := cleanupLoop_str_ok [] hstr
    refine ⟨pyStrip (joinSpace out), ?_⟩
    unfold extractText
    simp only [h, hout]

/-- A payload whose outputs value is a (truthy, non-subscriptable)
number. -/
def intOutputsData : PyVal := .dict [("outputs".toList, .int 5)]

/-- C10 witness: a gathering failure (subscripting an int) and a
string-only payload, on concrete inputs. -/
theorem c10_total_on_string_texts_witness :
    extractText intOutputsData = .ok [] ∧
      (∃ s, extractText (.dict [("outputs".toList, .list [.dict [("data".toList,
        .dict [("text".toList, .dict [("raw".toList,
          .str "Up".toList)])])]])]) = .ok s) := by
  have h := c10_total_on_string_texts
  refine ⟨h.1 intOutputsData .typeError rfl, ?_⟩
  exact h.2.2 _ [.str "Up".toList] rfl (by intro t ht; simp at ht; rw [ht]; rfl)
